import Mathlib

/-!
Shallow embedding of `internal/interfaces/networking_ip_interface.go` from the
terraform-provider-netapp-ontap repository: the four CRUD adapter operations
(`GetIPInterface`, `GetIPInterfaces`, `CreateIPInterface`, `DeleteIPInterface`),
their query construction, the mapstructure-based flattening/decoding of the
typed models, and the uniform error wrapping through the error handler.

The REST client, the error handler and the `Vserver` struct live in other files
of the repository that are not part of this slice; they are modelled from the
specification and marked as such in their doc comments.  The mitchellh
mapstructure library's struct-to-map encoding and map-to-struct decoding for
the concrete field sets used here are embedded directly from that library's
documented semantics.
-/

namespace OntapIfc

/-- A decoded-JSON-like value as handled by mapstructure: Go's
`interface\x7b\x7d` values restricted to the shapes this adapter produces and
consumes (strings, integers, and string-keyed objects).  A non-nil pointer to a
struct is modelled by the object form of its pointee, which is how it is
serialized on the wire. -/
inductive JVal where
  | str (s : String)
  | num (n : Int)
  | obj (elems : List (String × JVal))
deriving Repr

/-- Go's `map[string]interface\x7b\x7d`, the shape of a decoded record and of a
flattened request body, modelled as an association list (Go map iteration
order is unspecified; the embedding fixes struct-field order). -/
abbrev GoMap := List (String × JVal)

/-- A Go slice of α.  `none` is the nil slice, `some xs` a non-nil slice with
elements `xs`; Go's `append` on a nil slice allocates a non-nil one. -/
abbrev GoSlice (α : Type) := Option (List α)

/-- Go `append(s, x)`: a nil slice becomes a one-element non-nil slice. -/
def GoSlice.append {α : Type} (s : GoSlice α) (x : α) : GoSlice α :=
  match s with
  | none => some [x]
  | some xs => some (xs ++ [x])

/-- The elements of a Go slice; a nil slice has none (`len` ranges over this). -/
def GoSlice.toList {α : Type} (s : GoSlice α) : List α := s.getD []

/-- Modelled from the spec: the diagnostic error object produced by the error
reporting collaborator (`utils.ErrorHandler`, not under `src/`), "carrying both
a short summary and full detail string". -/
structure DiagnosticError where
  summary : String
  detail : String
deriving Repr, DecidableEq

/-- Modelled from the spec: `errorHandler.MakeAndReportError` (in
`internal/utils`, not under `src/`), the single error-construction point that,
"given a short summary and a detailed message, produces a caller-visible
diagnostic error object". -/
def MakeAndReportError (summary detail : String) : DiagnosticError :=
  ⟨summary, detail⟩

/-- Modelled from the spec: the query builder of the REST client (in
`internal/restclient`, not under `src/`), "supporting key/value assignment,
field-list selection, and bulk assignment from a flattened mapping". -/
structure RestQuery where
  params : List (String × String)
  projection : List String
deriving Repr, DecidableEq

/-- Modelled from the spec: `r.NewQuery()` — a fresh, empty query. -/
def RestQuery.new : RestQuery := ⟨[], []⟩

/-- Modelled from the spec: `query.Set(k, v)` — key/value assignment, replacing
any existing value for the key (url.Values.Set semantics). -/
def RestQuery.set (q : RestQuery) (k v : String) : RestQuery :=
  if q.params.any (fun p => p.1 == k) then
    { q with params := q.params.map (fun p => if p.1 == k then (k, v) else p) }
  else
    { q with params := q.params ++ [(k, v)] }

/-- Modelled from the spec: `query.Add(k, v)` — appends a value for the key. -/
def RestQuery.add (q : RestQuery) (k v : String) : RestQuery :=
  { q with params := q.params ++ [(k, v)] }

/-- Modelled from the spec: `query.Fields(fs)` — field-list selection, the
projection of record attributes the server is asked to return. -/
def RestQuery.setProjection (q : RestQuery) (fs : List String) : RestQuery :=
  { q with projection := fs }

/-- Modelled from the spec: `query.SetValues(m)` — "bulk assignment from a
flattened mapping"; per the spec, "any zero-valued field is treated as
unconstrained, not as an explicit match-empty-string constraint", so only
non-empty values are assigned into the query. -/
def RestQuery.setValues (q : RestQuery) (kvs : List (String × String)) : RestQuery :=
  kvs.foldl (fun acc p => if p.2 = "" then acc else acc.set p.1 p.2) q

/-- Modelled from the spec: the response object of the create call, exposing a
records collection (`restclient.RestResponse`, not under `src/`). -/
structure RestResponse where
  records : List GoMap
deriving Repr

/-- Modelled from the spec: the REST client collaborator (not under `src/`),
as a bundle of the four transport calls the adapter consumes.  Each call
returns a status code, a decoded body, and an error, and remains an
uninterpreted function of the path, query and body it is given. -/
structure RestClient where
  getNilOrOneRecord : String → RestQuery → Int × Option GoMap × Option String
  getZeroOrMoreRecords : String → RestQuery → Int × Option (List GoMap) × Option String
  callCreateMethod : String → RestQuery → GoMap → Int × RestResponse × Option String
  callDeleteMethod : String → Int × Option String

/-- `IPInterfaceGetDataModelONTAP` — the GET record data model
(`networking_ip_interface.go` lines 13–18): name, scope, svm.name, uuid. -/
structure IPInterfaceGetDataModelONTAP where
  Name : String
  Scope : String
  SVMName : String
  UUID : String
deriving Repr, DecidableEq

/-- Modelled from the spec: `Vserver` (defined in a sibling file of the
`interfaces` package, not under `src/`) — the owning-container reference,
serialized as an object with a `name` attribute. -/
structure Vserver where
  Name : String
deriving Repr, DecidableEq

/-- `IPInterfaceResourceIP` — the body data model for the ip field. -/
structure IPInterfaceResourceIP where
  Address : String
  Netmask : Int
deriving Repr, DecidableEq

/-- `IPInterfaceResourceHomeNode` — the body data model for home_node. -/
structure IPInterfaceResourceHomeNode where
  Name : String
deriving Repr, DecidableEq

/-- `IPInterfaceResourceHomePort` — the body data model for home_port. -/
structure IPInterfaceResourceHomePort where
  Name : String
  Node : IPInterfaceResourceHomeNode
deriving Repr, DecidableEq

/-- `IPInterfaceResourceLocation` — the body data model for location; the
home_node and home_port members are optional pointers tagged `omitempty`. -/
structure IPInterfaceResourceLocation where
  HomeNode : Option IPInterfaceResourceHomeNode
  HomePort : Option IPInterfaceResourceHomePort
deriving Repr, DecidableEq

/-- `IPInterfaceResourceBodyDataModelONTAP` — the create request body model;
note that the `location` member carries no `omitempty` tag. -/
structure IPInterfaceResourceBodyDataModelONTAP where
  Name : String
  SVM : Vserver
  IP : IPInterfaceResourceIP
  Location : IPInterfaceResourceLocation
deriving Repr, DecidableEq

/-- The fixed resource path all four operations address. -/
def apiIP : String := "network/ip/interfaces"

/-- Look up a key in a decoded record (mapstructure matches the tag against the
map key literally). -/
def lookupKey (m : GoMap) (k : String) : Option JVal :=
  (m.find? (fun p => p.1 == k)).map Prod.snd

/-- mapstructure decoding of one string-typed struct field from a record: a
missing key leaves the field at its zero value `""`; a present value of any
non-string shape is a decode error (no weakly-typed input is configured). -/
def decodeStringField (m : GoMap) (k : String) : Except String String :=
  match lookupKey m k with
  | none => .ok ""
  | some (JVal.str s) => .ok s
  | some _ => .error ("cannot decode field " ++ k)

/-- `mapstructure.Decode(m, &dataONTAP)` for `IPInterfaceGetDataModelONTAP`:
decodes the four tagged string fields (`name`, `scope`, `svm.name`, `uuid`);
keys not named by any tag are ignored, so any `ip` data in the record is
discarded. -/
def decodeIPInterfaceGet (m : GoMap) : Except String IPInterfaceGetDataModelONTAP := do
  let n ← decodeStringField m "name"
  let sc ← decodeStringField m "scope"
  let sv ← decodeStringField m "svm.name"
  let u ← decodeStringField m "uuid"
  return ⟨n, sc, sv, u⟩

/-- `mapstructure.Decode(filter, &filterMap)` for a
`IPInterfaceGetDataModelONTAP` filter: struct-to-map encoding emits every
field under its tag key (none of the four tags carries `omitempty`), zero
values included; for this field set of plain strings the encoding cannot
fail, so the adapter's encode-error branch is unreachable. -/
def flattenIPInterfaceGetFilter (f : IPInterfaceGetDataModelONTAP) : List (String × String) :=
  [("name", f.Name), ("scope", f.Scope), ("svm.name", f.SVMName), ("uuid", f.UUID)]

/-- `mapstructure.Decode(body, &bodyMap)` for
`IPInterfaceResourceBodyDataModelONTAP`: struct-to-map encoding; the `name`,
`svm`, `ip` and `location` members are always emitted (no `omitempty` on their
tags), while inside `location` the `home_node` and `home_port` pointers are
tagged `omitempty` and a nil pointer is an empty value, so each is emitted only
when present.  For this field set the encoding cannot fail, so the adapter's
encode-error branch is unreachable. -/
def flattenIPInterfaceResourceBody (b : IPInterfaceResourceBodyDataModelONTAP) : GoMap :=
  [("name", JVal.str b.Name),
   ("svm", JVal.obj [("name", JVal.str b.SVM.Name)]),
   ("ip", JVal.obj [("address", JVal.str b.IP.Address), ("netmask", JVal.num b.IP.Netmask)]),
   ("location", JVal.obj
     ((match b.Location.HomeNode with
       | none => []
       | some hn => [("home_node", JVal.obj [("name", JVal.str hn.Name)])]) ++
      (match b.Location.HomePort with
       | none => []
       | some hp => [("home_port", JVal.obj
           [("name", JVal.str hp.Name), ("node", JVal.obj [("name", JVal.str hp.Node.Name)])])])))]

/-- The query built by `GetIPInterface` (lines 54–62): match on name, then
either `scope=cluster` (empty svm name) or `svm.name` plus `scope=svm`, then
the fixed projection. -/
def getOneQuery (name svmName : String) : RestQuery :=
  let query := RestQuery.new
  let query := query.set "name" name
  let query :=
    if svmName = "" then query.set "scope" "cluster"
    else (query.set "svm.name" svmName).set "scope" "svm"
  query.setProjection ["name", "svm.name", "ip", "scope"]

/-- The query built by `GetIPInterfaces` (lines 86–93): the fixed projection,
then — for a non-nil filter — bulk assignment of the flattened filter. -/
def getManyQuery (filter : Option IPInterfaceGetDataModelONTAP) : RestQuery :=
  let query := (RestQuery.new).setProjection ["name", "svm.name", "ip", "scope"]
  match filter with
  | none => query
  | some f => query.setValues (flattenIPInterfaceGetFilter f)

/-- The query built by `CreateIPInterface` (lines 120–121):
`return_records=true`. -/
def createQuery : RestQuery := (RestQuery.new).add "return_records" "true"

/-- What `GetIPInterface` does after the transport call returns
(lines 63–77): a transport error, or a nil response with no error, is wrapped
as a uniform read error; otherwise the record is decoded, a decode failure is
wrapped, and the decoded record is returned. -/
def getOneAfter (statusCode : Int) (response : Option GoMap) (err : Option String) :
    Except DiagnosticError IPInterfaceGetDataModelONTAP :=
  match err, response with
  | some e, _ =>
      .error (MakeAndReportError "error reading ip_interface info"
        ("error on GET " ++ apiIP ++ ": " ++ e ++ ", statusCode " ++ toString statusCode))
  | none, none =>
      .error (MakeAndReportError "error reading ip_interface info"
        ("error on GET " ++ apiIP ++ ": " ++ ("no response for GET " ++ apiIP) ++
         ", statusCode " ++ toString statusCode))
  | none, some m =>
      match decodeIPInterfaceGet m with
      | .error e =>
          .error (MakeAndReportError ("failed to decode response from GET " ++ apiIP)
            ("error: " ++ e ++ ", statusCode " ++ toString statusCode ++
             ", response " ++ reprStr m))
      | .ok dataONTAP => .ok dataONTAP

/-- `GetIPInterface` (lines 52–78): builds the query, performs the
zero-or-one-record GET, and post-processes the transport outcome.  The Go
function returns `(*IPInterfaceGetDataModelONTAP, error)`; a success always
carries a non-nil record pointer and a failure always pairs a nil record with
a non-nil error, which `Except` captures exactly. -/
def GetIPInterface (r : RestClient) (name svmName : String) :
    Except DiagnosticError IPInterfaceGetDataModelONTAP :=
  let t := r.getNilOrOneRecord apiIP (getOneQuery name svmName)
  getOneAfter t.1 t.2.1 t.2.2

/-- The decode loop of `GetIPInterfaces` (lines 102–110): records are decoded
in server order and appended to a slice that starts nil; the first decode
failure aborts the whole call with a wrapped error. -/
def getManyLoop (statusCode : Int) (acc : GoSlice IPInterfaceGetDataModelONTAP) :
    List GoMap → Except DiagnosticError (GoSlice IPInterfaceGetDataModelONTAP)
  | [] => .ok acc
  | info :: rest =>
    match decodeIPInterfaceGet info with
    | .error e =>
        .error (MakeAndReportError ("failed to decode response from GET " ++ apiIP)
          ("error: " ++ e ++ ", statusCode " ++ toString statusCode ++
           ", info " ++ reprStr info))
    | .ok record => getManyLoop statusCode (acc.append record) rest

/-- What `GetIPInterfaces` does after the transport call returns
(lines 94–111): a transport error, or a nil records slice with no error, is
wrapped as a uniform read error; otherwise each record is decoded in order
into a slice declared nil. -/
def getManyAfter (statusCode : Int) (response : Option (List GoMap)) (err : Option String) :
    Except DiagnosticError (GoSlice IPInterfaceGetDataModelONTAP) :=
  match err, response with
  | some e, _ =>
      .error (MakeAndReportError "error reading ip_interfaces info"
        ("error on GET " ++ apiIP ++ ": " ++ e ++ ", statusCode " ++ toString statusCode))
  | none, none =>
      .error (MakeAndReportError "error reading ip_interfaces info"
        ("error on GET " ++ apiIP ++ ": " ++ ("no response for GET " ++ apiIP) ++
         ", statusCode " ++ toString statusCode))
  | none, some records => getManyLoop statusCode none records

/-- `GetIPInterfaces` (lines 83–112): builds the query (flattening a non-nil
filter into it), performs the zero-or-more-records GET, and post-processes the
transport outcome. -/
def GetIPInterfaces (r : RestClient) (filter : Option IPInterfaceGetDataModelONTAP) :
    Except DiagnosticError (GoSlice IPInterfaceGetDataModelONTAP) :=
  let t := r.getZeroOrMoreRecords apiIP (getManyQuery filter)
  getManyAfter t.1 t.2.1 t.2.2

/-- The outcome of `CreateIPInterface`: Go returns
`(*IPInterfaceGetDataModelONTAP, error)`, but the unguarded `Records[0]`
access can also abort the call with a runtime panic, which neither returns a
result nor an error; the `fault` constructor models that panic. -/
inductive CreateResult (α : Type) where
  | ok (a : α)
  | err (e : DiagnosticError)
  | fault (msg : String)
deriving Repr, DecidableEq

/-- Whether a create outcome is a returned diagnostic error. -/
def CreateResult.isErr {α : Type} : CreateResult α → Bool
  | .err _ => true
  | _ => false

/-- What `CreateIPInterface` does after the transport call returns
(lines 123–131): a transport error is wrapped; otherwise the first element of
the records collection is accessed unconditionally — on an empty collection
this is an index-out-of-range runtime fault — and decoded, a decode failure
being wrapped. -/
def createAfter (statusCode : Int) (response : RestResponse) (err : Option String) :
    CreateResult IPInterfaceGetDataModelONTAP :=
  match err with
  | some e =>
      .err (MakeAndReportError "error creating ip_interface"
        ("error on POST " ++ apiIP ++ ": " ++ e ++ ", statusCode " ++ toString statusCode))
  | none =>
    match response.records with
    | [] => .fault "runtime error: index out of range [0] with length 0"
    | m :: _ =>
      match decodeIPInterfaceGet m with
      | .error e =>
          .err (MakeAndReportError "error decoding ip_interface info"
            ("error on decode storage/ip_interfaces info: " ++ e ++ ", statusCode " ++
             toString statusCode ++ ", response " ++ reprStr response.records))
      | .ok dataONTAP => .ok dataONTAP

/-- `CreateIPInterface` (lines 115–134): flattens the body, adds
`return_records=true`, performs the POST, and post-processes the outcome. -/
def CreateIPInterface (r : RestClient) (body : IPInterfaceResourceBodyDataModelONTAP) :
    CreateResult IPInterfaceGetDataModelONTAP :=
  let bodyMap := flattenIPInterfaceResourceBody body
  let t := r.callCreateMethod apiIP createQuery bodyMap
  createAfter t.1 t.2.1 t.2.2

/-- What `DeleteIPInterface` does after the transport call returns
(lines 139–142): a transport error is wrapped; success returns no error. -/
def deleteAfter (statusCode : Int) (err : Option String) : Option DiagnosticError :=
  match err with
  | some e =>
      some (MakeAndReportError "error deleting ip_interface"
        ("error on DELETE " ++ apiIP ++ ": " ++ e ++ ", statusCode " ++ toString statusCode))
  | none => none

/-- `DeleteIPInterface` (lines 137–143): issues the DELETE addressed by uuid
appended to the resource path; `none` is Go's nil error return. -/
def DeleteIPInterface (r : RestClient) (uuid : String) : Option DiagnosticError :=
  let t := r.callDeleteMethod (apiIP ++ "/" ++ uuid)
  deleteAfter t.1 t.2

/-- Remove a key from a decoded record (used to state that the `ip` data a
response may carry is discarded by decoding). -/
def eraseKey (k : String) (m : GoMap) : GoMap :=
  m.filter (fun p => !(p.1 == k))

/-- Total extraction of a decoded record, defaulting on the (absent under the
hypotheses where it is used) decode-failure case. -/
def decodeOrDefault (m : GoMap) : IPInterfaceGetDataModelONTAP :=
  match decodeIPInterfaceGet m with
  | .ok d => d
  | .error _ => ⟨"", "", "", ""⟩

/-- The slice produced by appending the decodings of `ms` to `acc` in order. -/
def appendDecoded (acc : GoSlice IPInterfaceGetDataModelONTAP) (ms : List GoMap) :
    GoSlice IPInterfaceGetDataModelONTAP :=
  ms.foldl (fun a m => a.append (decodeOrDefault m)) acc

/-- A REST client with constant transport outcomes, used to instantiate the
theorems on concrete scenarios. -/
def mkClient (g1 : Int × Option GoMap × Option String)
    (gm : Int × Option (List GoMap) × Option String)
    (cr : Int × RestResponse × Option String)
    (de : Int × Option String) : RestClient :=
  ⟨fun _ _ => g1, fun _ _ => gm, fun _ _ _ => cr, fun _ => de⟩

/-- A server record for `lif1` owned by `vs1`, carrying `ip` data as the
requested projection asks for. -/
def recLif1 : GoMap :=
  [("name", JVal.str "lif1"), ("scope", JVal.str "svm"), ("svm.name", JVal.str "vs1"),
   ("uuid", JVal.str "1cd8a442-86d1-11e0-ae1c-123478563412"),
   ("ip", JVal.obj [("address", JVal.str "10.0.0.5"), ("netmask", JVal.num 24)])]

/-- A record whose `name` value is not a string, so decoding it into the GET
data model fails. -/
def recUndecodable : GoMap := [("name", JVal.num 3)]

/-- The create specification of the spec's concrete scenario: `lif1` on `vs1`
with address `10.0.0.5/24` and no placement. -/
def bodyNoPlacement : IPInterfaceResourceBodyDataModelONTAP :=
  ⟨"lif1", ⟨"vs1"⟩, ⟨"10.0.0.5", 24⟩, ⟨none, none⟩⟩

/-- A client whose every transport call fails at the transport level. -/
def clientDown : RestClient :=
  mkClient (500, none, some "connection refused")
    (500, none, some "connection refused")
    (500, ⟨[]⟩, some "connection refused")
    (500, some "connection refused")

/-- A client for the after-delete world: delete succeeded, the single-record
GET signals not-found by a nil response with nil error, and the multi-record
GET returns a non-nil empty records slice. -/
def clientGone : RestClient :=
  mkClient (200, none, none) (200, some [], none) (201, ⟨[recLif1]⟩, none) (200, none)

/-- A client whose create call succeeds at the transport level but returns an
empty records collection. -/
def clientCreateNoRecords : RestClient :=
  mkClient (200, some recLif1, none) (200, some [recLif1], none) (201, ⟨[]⟩, none) (200, none)

/-- A client whose reads return the `lif1` record and whose create echoes it. -/
def clientEcho : RestClient :=
  mkClient (200, some recLif1, none) (200, some [recLif1], none) (201, ⟨[recLif1]⟩, none)
    (200, none)

/-- A client whose multi-record GET returns one undecodable record. -/
def clientBadRecord : RestClient :=
  mkClient (200, some recUndecodable, none) (200, some [recUndecodable], none)
    (201, ⟨[recUndecodable]⟩, none) (200, none)

/-! Query-construction lemmas. -/

theorem getOneQuery_cluster_eq (n : String) :
    getOneQuery n "" =
      ⟨[("name", n), ("scope", "cluster")], ["name", "svm.name", "ip", "scope"]⟩ := by
  simp [getOneQuery, RestQuery.new, RestQuery.set, RestQuery.setProjection]

theorem getOneQuery_svm_eq (n c : String) (h : c ≠ "") :
    getOneQuery n c =
      ⟨[("name", n), ("svm.name", c), ("scope", "svm")], ["name", "svm.name", "ip", "scope"]⟩ := by
  simp [getOneQuery, RestQuery.new, RestQuery.set, RestQuery.setProjection, h]

theorem getManyQuery_some_params (f : IPInterfaceGetDataModelONTAP) :
    (getManyQuery (some f)).params =
      (flattenIPInterfaceGetFilter f).filter (fun p => !(p.2 == "")) := by
  by_cases h1 : f.Name = "" <;> by_cases h2 : f.Scope = "" <;>
    by_cases h3 : f.SVMName = "" <;> by_cases h4 : f.UUID = "" <;>
      simp [getManyQuery, RestQuery.new, RestQuery.setProjection, RestQuery.setValues,
        RestQuery.set, flattenIPInterfaceGetFilter, h1, h2, h3, h4]

theorem getManyQuery_projection (filter : Option IPInterfaceGetDataModelONTAP) :
    (getManyQuery filter).projection = ["name", "svm.name", "ip", "scope"] := by
  cases filter with
  | none => rfl
  | some f =>
      have hset : ∀ (q : RestQuery) (k v : String), (q.set k v).projection = q.projection := by
        intro q k v
        unfold RestQuery.set
        split <;> rfl
      have h : ∀ (kvs : List (String × String)) (q : RestQuery),
          (q.setValues kvs).projection = q.projection := by
        intro kvs
        induction kvs with
        | nil => intro q; rfl
        | cons p rest ih =>
            intro q
            have hstep : RestQuery.setValues q (p :: rest) =
                RestQuery.setValues (if p.2 = "" then q else q.set p.1 p.2) rest := rfl
            rw [hstep, ih]
            by_cases hp : p.2 = ""
            · rw [if_pos hp]
            · rw [if_neg hp, hset]
      exact h (flattenIPInterfaceGetFilter f) ⟨[], ["name", "svm.name", "ip", "scope"]⟩

/-- Claim C7: in get-many, every zero-valued field of a non-nil filter is treated as
unconstrained — it never appears as a match-empty-string query parameter — and
a pair appears among the query parameters exactly when it is a non-zero field
of the flattened filter.
Claim C7. -/
theorem claim7_zero_filter_fields_unconstrained
    (f : IPInterfaceGetDataModelONTAP) (k v : String) :
    ((k, "") ∉ (getManyQuery (some f)).params) ∧
    ((k, v) ∈ (getManyQuery (some f)).params ↔
      ((k, v) ∈ flattenIPInterfaceGetFilter f ∧ v ≠ "")) := by
  rw [getManyQuery_some_params]
  constructor
  · intro hmem
    rw [List.mem_filter] at hmem
    simp at hmem
  · rw [List.mem_filter]
    simp

/-- Claim C9: get-one with an empty owning-container name queries `name=<name>` and
`scope=cluster` with no `svm.name` parameter; with a non-empty container `c`
it queries `name=<name>`, `svm.name=<c>` and `scope=svm`; both requests select
exactly the projection `name`, `svm.name`, `ip`, `scope`.
Claim C9. -/
theorem claim9_get_one_query_shape (n c : String) (h : c ≠ "") :
    (getOneQuery n "").params = [("name", n), ("scope", "cluster")] ∧
    (∀ v, ("svm.name", v) ∉ (getOneQuery n "").params) ∧
    (getOneQuery n c).params = [("name", n), ("svm.name", c), ("scope", "svm")] ∧
    (getOneQuery n "").projection = ["name", "svm.name", "ip", "scope"] ∧
    (getOneQuery n c).projection = ["name", "svm.name", "ip", "scope"] := by
  rw [getOneQuery_cluster_eq, getOneQuery_svm_eq n c h]
  refine ⟨rfl, ?_, rfl, rfl, rfl⟩
  intro v hv
  simp at hv

/-- Witness for C9 at the spec's concrete scenario: get-one("lif1", "") and
get-one("lif1", "vs1"). -/
theorem claim9_witness :
    (getOneQuery "lif1" "").params = [("name", "lif1"), ("scope", "cluster")] ∧
    (getOneQuery "lif1" "vs1").params =
      [("name", "lif1"), ("svm.name", "vs1"), ("scope", "svm")] := by
  have h := claim9_get_one_query_shape "lif1" "vs1" (by decide)
  exact ⟨h.1, h.2.2.1⟩

/-! Slice and decode-loop lemmas. -/

theorem GoSlice_append_toList {α : Type} (s : GoSlice α) (x : α) :
    (s.append x).toList = s.toList ++ [x] := by
  cases s <;> rfl

theorem GoSlice_append_ne_none {α : Type} (s : GoSlice α) (x : α) :
    s.append x ≠ none := by
  cases s <;> simp [GoSlice.append]

theorem appendDecoded_cons (acc : GoSlice IPInterfaceGetDataModelONTAP) (m : GoMap)
    (rest : List GoMap) :
    appendDecoded acc (m :: rest) = appendDecoded (acc.append (decodeOrDefault m)) rest := rfl

theorem appendDecoded_toList (ms : List GoMap) (acc : GoSlice IPInterfaceGetDataModelONTAP) :
    (appendDecoded acc ms).toList = acc.toList ++ ms.map decodeOrDefault := by
  induction ms generalizing acc with
  | nil => simp [appendDecoded]
  | cons m rest ih =>
      rw [appendDecoded_cons, ih, GoSlice_append_toList]
      simp

theorem appendDecoded_ne_none (ms : List GoMap) (acc : GoSlice IPInterfaceGetDataModelONTAP)
    (h : acc ≠ none ∨ ms ≠ []) : appendDecoded acc ms ≠ none := by
  induction ms generalizing acc with
  | nil =>
      rcases h with h | h
      · exact h
      · exact absurd rfl h
  | cons m rest ih =>
      rw [appendDecoded_cons]
      exact ih _ (Or.inl (GoSlice_append_ne_none acc (decodeOrDefault m)))

theorem getManyLoop_all_ok (sc : Int) (ms : List GoMap)
    (acc : GoSlice IPInterfaceGetDataModelONTAP)
    (h : ∀ m ∈ ms, ∃ d, decodeIPInterfaceGet m = .ok d) :
    getManyLoop sc acc ms = .ok (appendDecoded acc ms) := by
  induction ms generalizing acc with
  | nil => rfl
  | cons m rest ih =>
      obtain ⟨d, hd⟩ := h m (List.mem_cons_self m rest)
      have hdef : decodeOrDefault m = d := by simp [decodeOrDefault, hd]
      rw [appendDecoded_cons, hdef]
      show (match decodeIPInterfaceGet m with
        | .error e =>
            Except.error (MakeAndReportError ("failed to decode response from GET " ++ apiIP)
              ("error: " ++ e ++ ", statusCode " ++ toString sc ++ ", info " ++ reprStr m))
        | .ok record => getManyLoop sc (acc.append record) rest) = _
      rw [hd]
      exact ih _ (fun m' hm' => h m' (List.mem_cons_of_mem m hm'))

theorem getManyLoop_some_bad (sc : Int) (ms : List GoMap)
    (acc : GoSlice IPInterfaceGetDataModelONTAP)
    (h : ∃ m ∈ ms, ∃ e, decodeIPInterfaceGet m = .error e) :
    ∃ s d, getManyLoop sc acc ms = .error (MakeAndReportError s d) := by
  induction ms generalizing acc with
  | nil =>
      obtain ⟨m, hm, _⟩ := h
      exact absurd hm (List.not_mem_nil m)
  | cons m rest ih =>
      cases hd : decodeIPInterfaceGet m with
      | error e =>
          have hloop : getManyLoop sc acc (m :: rest) =
              Except.error (MakeAndReportError ("failed to decode response from GET " ++ apiIP)
                ("error: " ++ e ++ ", statusCode " ++ toString sc ++ ", info " ++ reprStr m)) := by
            show (match decodeIPInterfaceGet m with
              | .error e =>
                  Except.error (MakeAndReportError ("failed to decode response from GET " ++ apiIP)
                    ("error: " ++ e ++ ", statusCode " ++ toString sc ++ ", info " ++ reprStr m))
              | .ok record => getManyLoop sc (acc.append record) rest) = _
            rw [hd]
          exact ⟨_, _, hloop⟩
      | ok d =>
          obtain ⟨m', hm', e, he⟩ := h
          rcases List.mem_cons.mp hm' with hh | hh
          · subst hh
            rw [hd] at he
            exact absurd he (by simp)
          · have hloop : getManyLoop sc acc (m :: rest) = getManyLoop sc (acc.append d) rest := by
              show (match decodeIPInterfaceGet m with
                | .error e =>
                    Except.error (MakeAndReportError ("failed to decode response from GET " ++ apiIP)
                      ("error: " ++ e ++ ", statusCode " ++ toString sc ++ ", info " ++ reprStr m))
                | .ok record => getManyLoop sc (acc.append record) rest) = _
              rw [hd]
            rw [hloop]
            exact ih _ ⟨m', hh, e, he⟩

/-- The claim that get-many returns an empty non-nil sequence on an empty
server result is false at a concrete input: for a transport call that succeeds
with a non-nil empty records slice, the adapter returns Go's nil slice (the
loop appends into a slice declared `var dataONTAP []...` and never touches
it), which is not the non-nil empty slice the claim requires.
Counterexample to claim C5. -/
theorem claim5_empty_result_is_nil_slice_cex :
    GetIPInterfaces clientGone none =
      Except.ok (none : GoSlice IPInterfaceGetDataModelONTAP) ∧
    (Except.ok (some ([] : List IPInterfaceGetDataModelONTAP)) :
        Except DiagnosticError (GoSlice IPInterfaceGetDataModelONTAP)) ≠
      Except.ok (none : GoSlice IPInterfaceGetDataModelONTAP) := by
  exact ⟨rfl, by simp⟩

/-- Claim C5 as amended: get-many with an empty result from the server is a
valid, non-error outcome returning a zero-length sequence — concretely Go's
nil slice, since the result slice is only allocated by appending — paired
with a nil error, and any non-empty result preserves the server's record
order with no client-side reordering (the returned elements are the decodings
of the server records in order, and a non-empty server result yields a
non-nil slice).
Theorem for claim C5 (as amended). -/
theorem claim5_empty_and_order (r : RestClient)
    (filter : Option IPInterfaceGetDataModelONTAP) (sc : Int) (rs : List GoMap)
    (ht : r.getZeroOrMoreRecords apiIP (getManyQuery filter) = (sc, some rs, none))
    (hd : ∀ m ∈ rs, ∃ d, decodeIPInterfaceGet m = .ok d) :
    ∃ s, GetIPInterfaces r filter = .ok s ∧
      s.toList = rs.map decodeOrDefault ∧
      (rs = [] → s = none) ∧ (rs ≠ [] → s ≠ none) := by
  refine ⟨appendDecoded none rs, ?_, ?_, ?_, ?_⟩
  · show getManyAfter (r.getZeroOrMoreRecords apiIP (getManyQuery filter)).1
      (r.getZeroOrMoreRecords apiIP (getManyQuery filter)).2.1
      (r.getZeroOrMoreRecords apiIP (getManyQuery filter)).2.2 = _
    rw [ht]
    exact getManyLoop_all_ok sc rs none hd
  · rw [appendDecoded_toList]
    rfl
  · intro h; subst h; rfl
  · intro h; exact appendDecoded_ne_none rs none (Or.inr h)

/-- Witness for claim C5 (as amended) on a concrete client returning the
single record `recLif1`. -/
theorem claim5_witness :
    ∃ s, GetIPInterfaces clientEcho none = .ok s ∧
      s.toList = [recLif1].map decodeOrDefault ∧
      ([recLif1] = [] → s = none) ∧ ([recLif1] ≠ [] → s ≠ none) := by
  refine claim5_empty_and_order clientEcho none 200 [recLif1] rfl ?_
  intro m hm
  rw [List.mem_singleton] at hm
  subst hm
  exact ⟨_, rfl⟩

/-- Claim C6: if any record of a get-many response fails to decode, the whole
call fails with a nil result and a non-nil error built by the single error
constructor; no partial sequence of earlier successfully decoded records is
returned (an `Except.error` outcome carries no record sequence at all).
Theorem for claim C6. -/
theorem claim6_decode_all_or_nothing (r : RestClient)
    (filter : Option IPInterfaceGetDataModelONTAP) (sc : Int) (rs : List GoMap)
    (ht : r.getZeroOrMoreRecords apiIP (getManyQuery filter) = (sc, some rs, none))
    (hb : ∃ m ∈ rs, ∃ e, decodeIPInterfaceGet m = .error e) :
    ∃ s d, GetIPInterfaces r filter = .error (MakeAndReportError s d) := by
  have hrun : GetIPInterfaces r filter = getManyLoop sc none rs := by
    show getManyAfter (r.getZeroOrMoreRecords apiIP (getManyQuery filter)).1
      (r.getZeroOrMoreRecords apiIP (getManyQuery filter)).2.1
      (r.getZeroOrMoreRecords apiIP (getManyQuery filter)).2.2 = _
    rw [ht]
    rfl
  rw [hrun]
  exact getManyLoop_some_bad sc rs none hb

/-- Witness for claim C6 on a concrete client whose multi-record GET returns
one undecodable record. -/
theorem claim6_witness :
    ∃ s d, GetIPInterfaces clientBadRecord none = .error (MakeAndReportError s d) := by
  refine claim6_decode_all_or_nothing clientBadRecord none 200 [recUndecodable] rfl ?_
  exact ⟨recUndecodable, List.mem_singleton.mpr rfl, "cannot decode field name", rfl⟩

/-! Uniform error wrapping (claims C1 and C2). -/

/-- The claim that every operation returns a nil result and a non-nil
constructed error on every failure cause is false at a concrete input: when
the create transport call succeeds but the records collection is empty, the
unguarded `response.Records[0]` access aborts the call with an
index-out-of-range runtime fault instead of returning any error.
Counterexample to claim C1. -/
theorem claim1_create_bypasses_error_constructor_cex :
    (CreateIPInterface clientCreateNoRecords bodyNoPlacement).isErr = false ∧
    CreateIPInterface clientCreateNoRecords bodyNoPlacement =
      CreateResult.fault "runtime error: index out of range [0] with length 0" := by
  exact ⟨rfl, rfl⟩

/-- Claim C1 as amended: for every operation and every failure cause its code
path handles — transport error (all four operations), nil response despite a
nil error (get-one and get-many), decode failure (get-one, get-many, and
create on a non-empty records collection) — the operation returns a nil
result paired with a non-nil error produced through the single error
constructor `MakeAndReportError` from a short summary and a detail string,
and no such failure path returns a non-nil result or a nil error; the one
exception forced by the code is create when the transport succeeds but the
records collection is empty, which faults with an index-out-of-range access
instead of returning an error (the encode-failure branches are unreachable
because mapstructure's struct-to-map encoding of these fixed field sets
cannot fail).  The final four conjuncts tie each operation to its
post-transport processing function, so the first four cover every run of the
operations.
Theorem for claim C1 (as amended). -/
theorem claim1_uniform_error_wrapping :
    (∀ (sc : Int) (resp : Option GoMap) (e : Option String),
        (e ≠ none ∨ resp = none ∨
          (∃ m msg, resp = some m ∧ decodeIPInterfaceGet m = .error msg)) →
        ∃ s d, getOneAfter sc resp e = .error (MakeAndReportError s d)) ∧
    (∀ (sc : Int) (resp : Option (List GoMap)) (e : Option String),
        (e ≠ none ∨ resp = none ∨
          (∃ rs m msg, resp = some rs ∧ m ∈ rs ∧ decodeIPInterfaceGet m = .error msg)) →
        ∃ s d, getManyAfter sc resp e = .error (MakeAndReportError s d)) ∧
    (∀ (sc : Int) (resp : RestResponse) (e : Option String),
        (e ≠ none ∨
          (∃ m rest msg, resp.records = m :: rest ∧ decodeIPInterfaceGet m = .error msg)) →
        ∃ s d, createAfter sc resp e = .err (MakeAndReportError s d)) ∧
    (∀ (sc : Int) (e : Option String), e ≠ none →
        ∃ s d, deleteAfter sc e = some (MakeAndReportError s d)) ∧
    (∀ (r : RestClient) (n c : String),
        GetIPInterface r n c =
          getOneAfter (r.getNilOrOneRecord apiIP (getOneQuery n c)).1
            (r.getNilOrOneRecord apiIP (getOneQuery n c)).2.1
            (r.getNilOrOneRecord apiIP (getOneQuery n c)).2.2) ∧
    (∀ (r : RestClient) (filter : Option IPInterfaceGetDataModelONTAP),
        GetIPInterfaces r filter =
          getManyAfter (r.getZeroOrMoreRecords apiIP (getManyQuery filter)).1
            (r.getZeroOrMoreRecords apiIP (getManyQuery filter)).2.1
            (r.getZeroOrMoreRecords apiIP (getManyQuery filter)).2.2) ∧
    (∀ (r : RestClient) (b : IPInterfaceResourceBodyDataModelONTAP),
        CreateIPInterface r b =
          createAfter (r.callCreateMethod apiIP createQuery (flattenIPInterfaceResourceBody b)).1
            (r.callCreateMethod apiIP createQuery (flattenIPInterfaceResourceBody b)).2.1
            (r.callCreateMethod apiIP createQuery (flattenIPInterfaceResourceBody b)).2.2) ∧
    (∀ (r : RestClient) (u : String),
        DeleteIPInterface r u =
          deleteAfter (r.callDeleteMethod (apiIP ++ "/" ++ u)).1
            (r.callDeleteMethod (apiIP ++ "/" ++ u)).2) := by
  refine ⟨?_, ?_, ?_, ?_, fun _ _ _ => rfl, fun _ _ => rfl, fun _ _ => rfl, fun _ _ => rfl⟩
  · intro sc resp e h
    match e, resp with
    | some e', _ => exact ⟨_, _, rfl⟩
    | none, none => exact ⟨_, _, rfl⟩
    | none, some m =>
        rcases h with h | h | h
        · exact absurd rfl h
        · exact absurd h (by simp)
        · obtain ⟨m', msg, hm, hmsg⟩ := h
          rw [Option.some_inj] at hm
          subst hm
          have hone : getOneAfter sc (some m) none =
              Except.error (MakeAndReportError ("failed to decode response from GET " ++ apiIP)
                ("error: " ++ msg ++ ", statusCode " ++ toString sc ++
                 ", response " ++ reprStr m)) := by
            show (match decodeIPInterfaceGet m with
              | .error e =>
                  Except.error
                    (MakeAndReportError ("failed to decode response from GET " ++ apiIP)
                      ("error: " ++ e ++ ", statusCode " ++ toString sc ++
                       ", response " ++ reprStr m))
              | .ok dataONTAP => Except.ok dataONTAP) = _
            rw [hmsg]
          exact ⟨_, _, hone⟩
  · intro sc resp e h
    match e, resp with
    | some e', _ => exact ⟨_, _, rfl⟩
    | none, none => exact ⟨_, _, rfl⟩
    | none, some rs =>
        rcases h with h | h | h
        · exact absurd rfl h
        · exact absurd h (by simp)
        · obtain ⟨rs', m, msg, hrs, hm, hmsg⟩ := h
          rw [Option.some_inj] at hrs
          subst hrs
          exact getManyLoop_some_bad sc rs none ⟨m, hm, msg, hmsg⟩
  · intro sc resp e h
    match e with
    | some e' => exact ⟨_, _, rfl⟩
    | none =>
        rcases h with h | h
        · exact absurd rfl h
        · obtain ⟨m, rest, msg, hrec, hmsg⟩ := h
          have hcr : createAfter sc resp none =
              CreateResult.err (MakeAndReportError "error decoding ip_interface info"
                ("error on decode storage/ip_interfaces info: " ++ msg ++ ", statusCode " ++
                 toString sc ++ ", response " ++ reprStr resp.records)) := by
            show (match resp.records with
              | [] => CreateResult.fault "runtime error: index out of range [0] with length 0"
              | m :: _ =>
                match decodeIPInterfaceGet m with
                | .error e =>
                    CreateResult.err (MakeAndReportError "error decoding ip_interface info"
                      ("error on decode storage/ip_interfaces info: " ++ e ++ ", statusCode " ++
                       toString sc ++ ", response " ++ reprStr resp.records))
                | .ok dataONTAP => CreateResult.ok dataONTAP) = _
            rw [hrec]
            show (match decodeIPInterfaceGet m with
              | .error e =>
                  CreateResult.err (MakeAndReportError "error decoding ip_interface info"
                    ("error on decode storage/ip_interfaces info: " ++ e ++ ", statusCode " ++
                     toString sc ++ ", response " ++ reprStr (m :: rest)))
              | .ok dataONTAP => CreateResult.ok dataONTAP) = _
            rw [hmsg]
          exact ⟨_, _, hcr⟩
  · intro sc e h
    match e with
    | some e' => exact ⟨_, _, rfl⟩
    | none => exact absurd rfl h

/-- Witness for claim C1 (as amended): a transport failure of each of the
four operations surfaces as a constructed error. -/
theorem claim1_witness :
    (∃ s d, getOneAfter 500 none (some "connection refused") =
      .error (MakeAndReportError s d)) ∧
    (∃ s d, getManyAfter 500 none (some "connection refused") =
      .error (MakeAndReportError s d)) ∧
    (∃ s d, createAfter 500 ⟨[]⟩ (some "connection refused") =
      .err (MakeAndReportError s d)) ∧
    (∃ s d, deleteAfter 500 (some "connection refused") = some (MakeAndReportError s d)) := by
  refine ⟨claim1_uniform_error_wrapping.1 500 none (some "connection refused")
      (Or.inl (by simp)),
    claim1_uniform_error_wrapping.2.1 500 none (some "connection refused")
      (Or.inl (by simp)),
    claim1_uniform_error_wrapping.2.2.1 500 ⟨[]⟩ (some "connection refused")
      (Or.inl (by simp)),
    claim1_uniform_error_wrapping.2.2.2.1 500 (some "connection refused") (by simp)⟩

/-- Claim C2: when the transport-level create call succeeds (nil error) but
the response's records collection is empty, `CreateIPInterface` does not
return a constructed error: the unconditional `response.Records[0]` access
makes the call abort with an index-out-of-range fault.
Theorem for claim C2. -/
theorem claim2_create_empty_records_faults (r : RestClient)
    (b : IPInterfaceResourceBodyDataModelONTAP) (sc : Int)
    (ht : r.callCreateMethod apiIP createQuery (flattenIPInterfaceResourceBody b) =
      (sc, ⟨[]⟩, none)) :
    CreateIPInterface r b =
      CreateResult.fault "runtime error: index out of range [0] with length 0" ∧
    (CreateIPInterface r b).isErr = false := by
  have hrun : CreateIPInterface r b =
      CreateResult.fault "runtime error: index out of range [0] with length 0" := by
    show createAfter (r.callCreateMethod apiIP createQuery (flattenIPInterfaceResourceBody b)).1
      (r.callCreateMethod apiIP createQuery (flattenIPInterfaceResourceBody b)).2.1
      (r.callCreateMethod apiIP createQuery (flattenIPInterfaceResourceBody b)).2.2 = _
    rw [ht]
    rfl
  exact ⟨hrun, by rw [hrun]; rfl⟩

/-- Witness for claim C2 on a concrete client whose create call returns an
empty records collection with a nil error. -/
theorem claim2_witness :
    CreateIPInterface clientCreateNoRecords bodyNoPlacement =
      CreateResult.fault "runtime error: index out of range [0] with length 0" ∧
    (CreateIPInterface clientCreateNoRecords bodyNoPlacement).isErr = false := by
  exact claim2_create_empty_records_faults clientCreateNoRecords bodyNoPlacement 201 rfl

/-! Not-found handling in get-one (claims C3 and C4). -/

/-- The claim that get-one after a successful delete returns an empty/nil
result with no error is false at a concrete input: the code turns a nil
response with a nil transport error into a non-nil diagnostic error, so after
a successful delete the subsequent get-one for the same name and container
returns a nil result paired with a non-nil error, never a nil-result/nil-error
pair.
Counterexample to claim C3. -/
theorem claim3_get_after_delete_not_silent_cex :
    DeleteIPInterface clientGone "1cd8a442-86d1-11e0-ae1c-123478563412" = none ∧
    GetIPInterface clientGone "lif1" "vs1" =
      Except.error (MakeAndReportError "error reading ip_interface info"
        ("error on GET network/ip/interfaces: no response for GET network/ip/interfaces" ++
         ", statusCode 200")) := by
  exact ⟨rfl, rfl⟩

/-- Claim C3 as amended: after delete(identifier) succeeds, a subsequent
get-one with the same name and owning-container — for which the transport now
signals not-found by a nil response with a nil error — returns a nil result
paired with a non-nil diagnostic error whose summary is the uniform read
error, rather than a stale record; it does not return the nil-result/nil-error
"not-found" outcome the original claim describes.
Theorem for claim C3 (as amended). -/
theorem claim3_get_after_delete_errors (r : RestClient) (u n c : String) (sc : Int)
    (_hdel : DeleteIPInterface r u = none)
    (ht : r.getNilOrOneRecord apiIP (getOneQuery n c) = (sc, none, none)) :
    ∃ d, GetIPInterface r n c = Except.error d ∧
      d.summary = "error reading ip_interface info" := by
  have hrun : GetIPInterface r n c = getOneAfter sc none none := by
    show getOneAfter (r.getNilOrOneRecord apiIP (getOneQuery n c)).1
      (r.getNilOrOneRecord apiIP (getOneQuery n c)).2.1
      (r.getNilOrOneRecord apiIP (getOneQuery n c)).2.2 = _
    rw [ht]
  rw [hrun]
  exact ⟨_, rfl, rfl⟩

/-- Witness for claim C3 (as amended) on a concrete client in the
after-delete world. -/
theorem claim3_witness :
    ∃ d, GetIPInterface clientGone "lif1" "vs1" = Except.error d ∧
      d.summary = "error reading ip_interface info" := by
  exact claim3_get_after_delete_errors clientGone
    "1cd8a442-86d1-11e0-ae1c-123478563412" "lif1" "vs1" 200 rfl rfl

/-- Claim C4: whenever the underlying `GetNilOrOneRecord` returns a nil
response together with a nil error, get-one returns a nil result and the
non-nil constructed "no response" error; since a success always carries a
record and a failure always carries an error, get-one never returns the
nil-result/nil-error pair.
Theorem for claim C4. -/
theorem claim4_nil_response_surfaces_error (r : RestClient) (n c : String) (sc : Int)
    (ht : r.getNilOrOneRecord apiIP (getOneQuery n c) = (sc, none, none)) :
    GetIPInterface r n c =
      Except.error (MakeAndReportError "error reading ip_interface info"
        ("error on GET " ++ apiIP ++ ": " ++ ("no response for GET " ++ apiIP) ++
         ", statusCode " ++ toString sc)) := by
  show getOneAfter (r.getNilOrOneRecord apiIP (getOneQuery n c)).1
    (r.getNilOrOneRecord apiIP (getOneQuery n c)).2.1
    (r.getNilOrOneRecord apiIP (getOneQuery n c)).2.2 = _
  rw [ht]
  rfl

/-- Witness for claim C4 on a concrete client whose single-record GET returns
a nil response with a nil error. -/
theorem claim4_witness :
    GetIPInterface clientGone "lif1" "" =
      Except.error (MakeAndReportError "error reading ip_interface info"
        ("error on GET network/ip/interfaces: no response for GET network/ip/interfaces" ++
         ", statusCode 200")) := by
  have h := claim4_nil_response_surfaces_error clientGone "lif1" "" 200 rfl
  exact h

/-! The create body shape (claim C8). -/

/-- The claim that a create specification with no placement produces a
flattened body omitting the `location` key entirely is false at a concrete
input: the `location` tag carries no `omitempty`, so the body of the spec's
scenario (`lif1` on `vs1`, `10.0.0.5/24`, no placement) contains the keys
`name`, `svm`, `ip` and `location` — not only the first three.
Counterexample to claim C8. -/
theorem claim8_location_always_present_cex :
    (flattenIPInterfaceResourceBody bodyNoPlacement).map Prod.fst =
      ["name", "svm", "ip", "location"] ∧
    (["name", "svm", "ip", "location"] : List String) ≠ ["name", "svm", "ip"] := by
  exact ⟨rfl, by decide⟩

/-- Claim C8 as amended: for a create specification with neither home-node nor
home-port placement set, the flattened request body contains exactly the keys
`name`, `svm`, `ip` and `location`, the `location` value being the empty
object (its `home_node` and `home_port` members are omitted as empty); and a
successful create returns the decoded first record of the response, so when
the server echoes the created object its name and svm match the
specification.
Theorem for claim C8 (as amended). -/
theorem claim8_body_shape_and_echo (b : IPInterfaceResourceBodyDataModelONTAP)
    (hloc : b.Location = ⟨none, none⟩) :
    (flattenIPInterfaceResourceBody b).map Prod.fst = ["name", "svm", "ip", "location"] ∧
    lookupKey (flattenIPInterfaceResourceBody b) "location" = some (JVal.obj []) ∧
    ∀ (r : RestClient) (sc : Int) (m : GoMap) (rest : List GoMap)
      (d : IPInterfaceGetDataModelONTAP),
      r.callCreateMethod apiIP createQuery (flattenIPInterfaceResourceBody b) =
        (sc, ⟨m :: rest⟩, none) →
      decodeIPInterfaceGet m = .ok d →
      CreateIPInterface r b = CreateResult.ok d := by
  refine ⟨by simp [flattenIPInterfaceResourceBody], ?_, ?_⟩
  · simp [flattenIPInterfaceResourceBody, lookupKey, hloc, List.find?]
  · intro r sc m rest d ht hd
    have hrun : CreateIPInterface r b = createAfter sc ⟨m :: rest⟩ none := by
      show createAfter
        (r.callCreateMethod apiIP createQuery (flattenIPInterfaceResourceBody b)).1
        (r.callCreateMethod apiIP createQuery (flattenIPInterfaceResourceBody b)).2.1
        (r.callCreateMethod apiIP createQuery (flattenIPInterfaceResourceBody b)).2.2 = _
      rw [ht]
    rw [hrun]
    show (match decodeIPInterfaceGet m with
      | .error e =>
          CreateResult.err (MakeAndReportError "error decoding ip_interface info"
            ("error on decode storage/ip_interfaces info: " ++ e ++ ", statusCode " ++
             toString sc ++ ", response " ++ reprStr (RestResponse.mk (m :: rest)).records))
      | .ok dataONTAP => CreateResult.ok dataONTAP) = _
    rw [hd]

/-- Witness for claim C8 (as amended) on the spec's concrete scenario with a
server echoing the created record: the body carries the empty location object
and the returned record's name and svm match the specification. -/
theorem claim8_witness :
    lookupKey (flattenIPInterfaceResourceBody bodyNoPlacement) "location" =
      some (JVal.obj []) ∧
    CreateIPInterface clientEcho bodyNoPlacement =
      CreateResult.ok ⟨"lif1", "svm", "vs1", "1cd8a442-86d1-11e0-ae1c-123478563412"⟩ ∧
    bodyNoPlacement.Name = "lif1" ∧ bodyNoPlacement.SVM.Name = "vs1" := by
  have h := claim8_body_shape_and_echo bodyNoPlacement rfl
  exact ⟨h.2.1, h.2.2 clientEcho 201 recLif1 []
    ⟨"lif1", "svm", "vs1", "1cd8a442-86d1-11e0-ae1c-123478563412"⟩ rfl rfl, rfl, rfl⟩

/-! Discarding of the requested ip data (claim C10). -/

theorem lookupKey_cons_eq (p : String × JVal) (rest : GoMap) (k' : String) (h : p.1 = k') :
    lookupKey (p :: rest) k' = some p.2 := by
  unfold lookupKey
  rw [List.find?_cons_of_pos _ (by simp [h])]
  rfl

theorem lookupKey_cons_ne (p : String × JVal) (rest : GoMap) (k' : String) (h : ¬ p.1 = k') :
    lookupKey (p :: rest) k' = lookupKey rest k' := by
  unfold lookupKey
  rw [List.find?_cons_of_neg _ (by simp [h])]

theorem lookupKey_eraseKey (k k' : String) (h : k' ≠ k) (m : GoMap) :
    lookupKey (eraseKey k m) k' = lookupKey m k' := by
  induction m with
  | nil => rfl
  | cons p rest ih =>
      by_cases hp : p.1 = k
      · have herase : eraseKey k (p :: rest) = eraseKey k rest := by
          simp [eraseKey, List.filter_cons, hp]
        have h2 : ¬ p.1 = k' := fun hh => h (hh ▸ hp)
        rw [herase, lookupKey_cons_ne p rest k' h2]
        exact ih
      · have herase : eraseKey k (p :: rest) = p :: eraseKey k rest := by
          simp [eraseKey, List.filter_cons, hp]
        rw [herase]
        by_cases hq : p.1 = k'
        · rw [lookupKey_cons_eq p (eraseKey k rest) k' hq, lookupKey_cons_eq p rest k' hq]
        · rw [lookupKey_cons_ne p (eraseKey k rest) k' hq, lookupKey_cons_ne p rest k' hq]
          exact ih

theorem decodeStringField_eraseKey (k k' : String) (h : k' ≠ k) (m : GoMap) :
    decodeStringField (eraseKey k m) k' = decodeStringField m k' := by
  unfold decodeStringField
  rw [lookupKey_eraseKey k k' h m]

theorem decodeIPInterfaceGet_eraseIP (m : GoMap) :
    decodeIPInterfaceGet (eraseKey "ip" m) = decodeIPInterfaceGet m := by
  simp only [decodeIPInterfaceGet,
    decodeStringField_eraseKey "ip" "name" (by decide),
    decodeStringField_eraseKey "ip" "scope" (by decide),
    decodeStringField_eraseKey "ip" "svm.name" (by decide),
    decodeStringField_eraseKey "ip" "uuid" (by decide)]

theorem getOneQuery_projection (n c : String) :
    (getOneQuery n c).projection = ["name", "svm.name", "ip", "scope"] := by
  by_cases h : c = "" <;>
    simp [getOneQuery, RestQuery.new, RestQuery.set, RestQuery.setProjection, h]

/-- Claim C10: both read operations request the `ip` field (address/netmask)
in their field projection, yet the decoded result type carries only name,
scope, svm.name and uuid, so decoding ignores any `ip` data the server
returns — erasing the `ip` key from a response record changes neither the
decoding nor a successful get-one result, so no read operation's result ever
exposes the address/mask pair.
Theorem for claim C10. -/
theorem claim10_ip_requested_but_discarded (n c : String)
    (filter : Option IPInterfaceGetDataModelONTAP) (m : GoMap) :
    "ip" ∈ (getOneQuery n c).projection ∧
    "ip" ∈ (getManyQuery filter).projection ∧
    decodeIPInterfaceGet (eraseKey "ip" m) = decodeIPInterfaceGet m ∧
    (∀ (sc : Int) (d : IPInterfaceGetDataModelONTAP),
      getOneAfter sc (some m) none = .ok d →
      getOneAfter sc (some (eraseKey "ip" m)) none = .ok d) := by
  refine ⟨?_, ?_, decodeIPInterfaceGet_eraseIP m, ?_⟩
  · rw [getOneQuery_projection]
    simp
  · rw [getManyQuery_projection]
    simp
  · intro sc d h
    cases hd : decodeIPInterfaceGet m with
    | error e =>
        have : getOneAfter sc (some m) none =
            Except.error (MakeAndReportError ("failed to decode response from GET " ++ apiIP)
              ("error: " ++ e ++ ", statusCode " ++ toString sc ++
               ", response " ++ reprStr m)) := by
          show (match decodeIPInterfaceGet m with
            | .error e =>
                Except.error (MakeAndReportError ("failed to decode response from GET " ++ apiIP)
                  ("error: " ++ e ++ ", statusCode " ++ toString sc ++
                   ", response " ++ reprStr m))
            | .ok dataONTAP => Except.ok dataONTAP) = _
          rw [hd]
        rw [this] at h
        exact absurd h (by simp)
    | ok d' =>
        have hm : getOneAfter sc (some m) none = Except.ok d' := by
          show (match decodeIPInterfaceGet m with
            | .error e =>
                Except.error (MakeAndReportError ("failed to decode response from GET " ++ apiIP)
                  ("error: " ++ e ++ ", statusCode " ++ toString sc ++
                   ", response " ++ reprStr m))
            | .ok dataONTAP => Except.ok dataONTAP) = _
          rw [hd]
        rw [hm] at h
        rw [Except.ok.injEq] at h
        subst h
        show (match decodeIPInterfaceGet (eraseKey "ip" m) with
          | .error e =>
              Except.error (MakeAndReportError ("failed to decode response from GET " ++ apiIP)
                ("error: " ++ e ++ ", statusCode " ++ toString sc ++
                 ", response " ++ reprStr (eraseKey "ip" m)))
          | .ok dataONTAP => Except.ok dataONTAP) = _
        rw [decodeIPInterfaceGet_eraseIP m, hd]

/-- Witness for claim C10: erasing the `ip` data from the concrete `lif1`
record leaves the successful get-one outcome unchanged. -/
theorem claim10_witness :
    getOneAfter 200 (some (eraseKey "ip" recLif1)) none =
      Except.ok ⟨"lif1", "svm", "vs1", "1cd8a442-86d1-11e0-ae1c-123478563412"⟩ := by
  exact (claim10_ip_requested_but_discarded "lif1" "vs1" none recLif1).2.2.2 200
    ⟨"lif1", "svm", "vs1", "1cd8a442-86d1-11e0-ae1c-123478563412"⟩ rfl

end OntapIfc
